import Mathlib

/-!
Shallow embedding of `lib/ansible/modules/cloud/azure/azure_rm_container_registry.py`:
the reconciliation logic of the `AzureContainerRegistry` module class.

External collaborators (the Azure SDK clients, the poller, and the shared
`AzureRMModuleBase` framework) are modelled by an `Env` record that supplies
their responses for one invocation; every remote call the reconciler issues is
recorded, in order, in a trace of `RemoteCall` events.  `self.fail(...)` aborts
the invocation, so each method returns `Except Failure _`; the failure kind is
read off the message at each `fail` site (`Parameter error: ...` sites are
configuration errors, `Failed to ...` sites wrap a provider exception).  The
unguarded `account_keys.keys[0]` access can raise a Python `IndexError` that no
`except` clause catches; this surfaces as `Failure.uncaughtException`.

Python truthiness is preserved where the code relies on it: `if not
self.location` treats both `None` and the empty string as unset, and `if
self.tags` treats both `None` and an empty mapping as absent.  The module's
result dictionary starts as `dict(changed=False, state=dict())`; the initial
empty `state` dict is distinct from an explicit `None` and from a registry
record, so the output state is a three-way `ResultState`.
-/

namespace AzureRmContainerRegistry

/-- Tag mappings (Python `dict` of string to string) as association lists. -/
abbrev Tags := List (String × String)

/-- The dictionary built by `registry_obj_to_dict` / `self_to_dict`: one
container-registry record.  Fields that Python may hold as `None` are
`Option`s; provider-returned records populate them. -/
structure RegistryRecord where
  id : String
  name : String
  type : String
  location : Option String
  login_server : String
  creation_date : Nat
  provisioning_state : String
  admin_user_enabled : Bool
  storage_account_name : Option String
  sku_name : String
  tags : Option Tags
deriving DecidableEq, Repr

/-- `StorageAccountParameters(name, access_key)` from the SDK model. -/
structure StorageAccountParameters where
  name : Option String
  access_key : String
deriving DecidableEq, Repr

/-- `Sku(name)` from the SDK model. -/
structure Sku where
  name : String
deriving DecidableEq, Repr

/-- `RegistryCreateParameters(...)` as built in `create_container_registry`. -/
structure RegistryCreateParameters where
  location : Option String
  sku : Sku
  storage_account : StorageAccountParameters
  admin_user_enabled : Bool
  tags : Option Tags
deriving DecidableEq, Repr

/-- `RegistryUpdateParameters()` as built field-by-field in
`update_container_registry`; unset attributes stay `none`. -/
structure RegistryUpdateParameters where
  admin_user_enabled : Option Bool := none
  storage_account : Option StorageAccountParameters := none
  tags : Option Tags := none
deriving DecidableEq, Repr

/-- The value of `self.results['state']`: the initial empty `dict()`, an
explicit `None`, or a registry record. -/
inductive ResultState where
  | empty
  | null
  | record (r : RegistryRecord)
deriving DecidableEq, Repr

/-- Assigning `self.results['state'] = self.get_container_registry()`:
`None` becomes `null`, a dict becomes `record`. -/
def ResultState.ofOption : Option RegistryRecord → ResultState
  | none => ResultState.null
  | some r => ResultState.record r

/-- `self.results`, the module's output record. -/
structure Results where
  changed : Bool
  state : ResultState
deriving DecidableEq, Repr

/-- How an invocation aborts: `self.fail` with a `Parameter error:` message,
`self.fail` wrapping a provider exception, or a Python exception nothing
catches (the `keys[0]` IndexError). -/
inductive Failure where
  | configurationError (msg : String)
  | remoteOperationError (msg : String)
  | uncaughtException (msg : String)
deriving DecidableEq, Repr

/-- One remote call issued by the reconciliation algorithm, with its
arguments.  (The resource-group resolution performed by the framework before
the algorithm runs is a precondition lookup, modelled in `Env`, and is not an
algorithm call.) -/
inductive RemoteCall where
  | registryGet (resource_group name : String)
  | storageListKeys (resource_group : String) (account : Option String)
  | registryCreate (resource_group name : String) (params : RegistryCreateParameters)
  | registryUpdate (resource_group name : String) (params : RegistryUpdateParameters)
  | registryDelete (resource_group name : String)
deriving DecidableEq, Repr

/-- Whether a remote call mutates cloud state. -/
def RemoteCall.isWrite : RemoteCall → Bool
  | RemoteCall.registryCreate _ _ _ => true
  | RemoteCall.registryUpdate _ _ _ => true
  | RemoteCall.registryDelete _ _ => true
  | _ => false

/-- The resource group returned by `self.get_resource_group`. -/
structure ResourceGroup where
  location : String
deriving DecidableEq, Repr

/-- One entry of `account_keys.keys`. -/
structure AccountKey where
  value : String
deriving DecidableEq, Repr

/-- The result object of `storage_accounts.list_keys`. -/
structure StorageKeyList where
  keys : List AccountKey
deriving DecidableEq, Repr

/-- The module's attributes after `setattr` over the argument spec, plus the
framework's `check_mode` flag.  `state` keeps the code's string comparison
(`'present'` / `'absent'`). -/
structure ModuleArgs where
  resource_group : String
  name : String
  state : String
  location : Option String
  storage_account_name : Option String
  admin_user_enabled : Bool
  sku_name : String
  tags : Option Tags
  check_mode : Bool
deriving DecidableEq, Repr

/-- Responses of the external collaborators for one invocation.  A `none`
where the code catches `CloudError` models that caught provider error; the
`_error` fields model an exception raised by the corresponding write call. -/
structure Env where
  resource_group : Option ResourceGroup
  registry_first : Option RegistryRecord
  registry_after_write : Option RegistryRecord
  storage_keys : Option StorageKeyList
  delete_error : Option String
  create_error : Option String
  update_error : Option String
  now : Nat
deriving DecidableEq, Repr

/-- Python truthiness of a tags value: `None` and `{}` are falsy. -/
def truthyTags : Option Tags → Bool
  | none => false
  | some ts => !ts.isEmpty

/-- Python truthiness of `self.location`: `if not self.location` is taken for
`None` and for the empty string. -/
def locationFalsy : Option String → Bool
  | none => true
  | some s => s.isEmpty

/-- Lookup of a key in a tag mapping. -/
def tagLookup (ts : Tags) (k : String) : Option String :=
  (ts.find? (fun kv => kv.1 == k)).map (fun kv => kv.2)

/-- Insert-or-overwrite of one key in a tag mapping. -/
def tagSet (ts : Tags) (k v : String) : Tags :=
  if (ts.find? (fun kv => kv.1 == k)).isSome then
    ts.map (fun kv => if kv.1 == k then (k, v) else kv)
  else
    ts ++ [(k, v)]

/-- One requested tag merged into the accumulated `(changed, merged)` pair. -/
def mergeStep (acc : Bool × Tags) (kv : String × String) : Bool × Tags :=
  match tagLookup acc.2 kv.1 with
  | some v => if v = kv.2 then acc else (true, tagSet acc.2 kv.1 kv.2)
  | none => (true, tagSet acc.2 kv.1 kv.2)

/-- Modelled from the spec: the framework helper `AzureRMModuleBase.update_tags`
(the `MergeTags(existing, requested) -> (changed, merged)` collaborator) is not
part of this repository's source tree.  Per the spec, each key in the requested
tags overwrites or adds, existing tags not named in the requested tags are
preserved untouched, and `changed` reports whether the merge altered the
existing tags. -/
def update_tags (existing requested : Option Tags) : Bool × Tags :=
  (requested.getD []).foldl mergeStep (false, existing.getD [])

/-- `self_to_dict`: the record synthesized from the module's own attributes in
check mode.  `now` stands for `datetime.datetime.now()`. -/
def self_to_dict (args : ModuleArgs) (now : Nat) : RegistryRecord :=
  { id := ".../Microsoft.ContainerRegistry/registries/" ++ args.name
    name := args.name
    type := "Microsoft.ContainerRegistry/registries"
    location := args.location
    login_server := args.name ++ ".azurecr.io"
    creation_date := now
    provisioning_state := "Succeeded"
    admin_user_enabled := args.admin_user_enabled
    storage_account_name := args.storage_account_name
    sku_name := args.sku_name
    tags := if truthyTags args.tags then args.tags else none }

/-- `get_container_registry`: a `registries.get` call whose `CloudError` is
caught and mapped to `None`; the environment supplies the outcome. -/
def get_container_registry (args : ModuleArgs) (found : Option RegistryRecord) :
    Option RegistryRecord × List RemoteCall :=
  (found, [RemoteCall.registryGet args.resource_group args.name])

/-- `get_storage_account_key`: `list_keys` with `CloudError` caught to `None`,
the `None` case failed as a parameter error, then the unguarded
`account_keys.keys[0].value` access. -/
def get_storage_account_key (args : ModuleArgs) (env : Env) :
    Except Failure String × List RemoteCall :=
  let calls := [RemoteCall.storageListKeys args.resource_group args.storage_account_name]
  match env.storage_keys with
  | none =>
    (Except.error (Failure.configurationError
      "Parameter error: A valid storage account is required."), calls)
  | some ks =>
    match ks.keys with
    | [] => (Except.error (Failure.uncaughtException "IndexError: list index out of range"), calls)
    | k :: _ => (Except.ok k.value, calls)

/-- `delete_container_registry`. -/
def delete_container_registry (args : ModuleArgs) (env : Env) (results : Results) :
    Except Failure Results × List RemoteCall :=
  if args.check_mode then
    (Except.ok { results with changed := true, state := ResultState.null }, [])
  else
    match get_container_registry args env.registry_first with
    | (none, calls) => (Except.ok { results with changed := false }, calls)
    | (some _, calls) =>
      match env.delete_error with
      | some e =>
        (Except.error (Failure.remoteOperationError
          ("Failed to delete the container registry: " ++ e)),
         calls ++ [RemoteCall.registryDelete args.resource_group args.name])
      | none =>
        (Except.ok { results with changed := true },
         calls ++ [RemoteCall.registryDelete args.resource_group args.name])

/-- Tail of `update_container_registry` after the `storage_account_name`
diff: the tag merge, the no-change early return, the check-mode return, and
the remote update with its re-fetch.  `changed` and `params` carry the
`self.results['changed']` flag and the `RegistryUpdateParameters` built so
far; `calls` the remote calls issued so far. -/
def update_finish (args : ModuleArgs) (env : Env) (results : Results)
    (registry_tags : Option Tags) (changed : Bool)
    (params : RegistryUpdateParameters) (calls : List RemoteCall) :
    Except Failure Results × List RemoteCall :=
  let ut := update_tags registry_tags args.tags
  let changed2 := if ut.1 then true else changed
  let params2 := if ut.1 then { params with tags := some ut.2 } else params
  if changed2 = false then
    (Except.ok { results with changed := changed2 }, calls)
  else if args.check_mode then
    (Except.ok { results with
        changed := changed2,
        state := ResultState.record (self_to_dict args env.now) }, calls)
  else
    let ucall := RemoteCall.registryUpdate args.resource_group args.name params2
    match env.update_error with
    | some e =>
      (Except.error (Failure.remoteOperationError
        ("Failed to update container registry: " ++ e)), calls ++ [ucall])
    | none =>
      match get_container_registry args env.registry_after_write with
      | (after, gcalls) =>
        (Except.ok { results with changed := true, state := ResultState.ofOption after },
         calls ++ [ucall] ++ gcalls)

/-- `update_container_registry`: the `storage_account_name is None` guard,
the `admin_user_enabled` diff, the `storage_account_name` diff with its key
fetch, then `update_finish`. -/
def update_container_registry (args : ModuleArgs) (env : Env) (results : Results)
    (registry_dictionary : RegistryRecord) :
    Except Failure Results × List RemoteCall :=
  if args.storage_account_name = none then
    (Except.error (Failure.configurationError
      "Parameter error: A valid storage account name is required."), [])
  else
    let step1 : Bool × RegistryUpdateParameters :=
      if args.admin_user_enabled ≠ registry_dictionary.admin_user_enabled then
        (true, { admin_user_enabled := some args.admin_user_enabled })
      else
        (results.changed, {})
    if args.storage_account_name ≠ registry_dictionary.storage_account_name then
      match get_storage_account_key args env with
      | (Except.error e, kcalls) => (Except.error e, kcalls)
      | (Except.ok key, kcalls) =>
        update_finish args env results registry_dictionary.tags true
          { step1.2 with
              storage_account :=
                some { name := args.storage_account_name, access_key := key } }
          kcalls
    else
      update_finish args env results registry_dictionary.tags step1.1 step1.2 []

/-- `create_container_registry`. -/
def create_container_registry (args : ModuleArgs) (env : Env) (results : Results) :
    Except Failure Results × List RemoteCall :=
  if args.check_mode then
    (Except.ok { results with
        changed := true,
        state := ResultState.record (self_to_dict args env.now) }, [])
  else if args.storage_account_name = none then
    (Except.error (Failure.configurationError
      "Parameter error: A valid storage account name is required."), [])
  else
    match get_storage_account_key args env with
    | (Except.error e, kcalls) => (Except.error e, kcalls)
    | (Except.ok key, kcalls) =>
      let params : RegistryCreateParameters :=
        { location := args.location
          sku := { name := args.sku_name }
          storage_account := { name := args.storage_account_name, access_key := key }
          admin_user_enabled := args.admin_user_enabled
          tags := args.tags }
      let ccall := RemoteCall.registryCreate args.resource_group args.name params
      match env.create_error with
      | some e =>
        (Except.error (Failure.remoteOperationError
          ("Failed to create container registry: " ++ e)), kcalls ++ [ccall])
      | none =>
        match get_container_registry args env.registry_after_write with
        | (after, gcalls) =>
          (Except.ok { results with changed := true, state := ResultState.ofOption after },
           kcalls ++ [ccall] ++ gcalls)

/-- `exec_module`: resource-group precondition, location defaulting, name
length validation, then the present/absent dispatch.  Returns the final
`self.results` (or the aborting failure) together with the trace of remote
calls the algorithm issued. -/
def exec_module (args : ModuleArgs) (env : Env) :
    Except Failure Results × List RemoteCall :=
  let results : Results := { changed := false, state := ResultState.empty }
  match env.resource_group with
  | none =>
    (Except.error (Failure.configurationError
      "Parameter error: An existing resource group is required"), [])
  | some rg =>
    let args1 :=
      if locationFalsy args.location then { args with location := some rg.location } else args
    if args1.name.length < 5 ∨ args1.name.length > 50 then
      (Except.error (Failure.configurationError
        "Parameter error: name length must be between 5 and 50 characters."), [])
    else if args1.state = "present" then
      match get_container_registry args1 env.registry_first with
      | (none, calls) =>
        match create_container_registry args1 env results with
        | (r, calls2) => (r, calls ++ calls2)
      | (some reg, calls) =>
        match update_container_registry args1 env results reg with
        | (r, calls2) => (r, calls ++ calls2)
    else if args1.state = "absent" then
      delete_container_registry args1 env results
    else
      (Except.ok results, [])

/-- A provider-returned registry record used by concrete instances. -/
def sampleRecord : RegistryRecord :=
  { id := "/subscriptions/s/resourceGroups/rg1/providers/Microsoft.ContainerRegistry/registries/myregistry"
    name := "myregistry"
    type := "Microsoft.ContainerRegistry/registries"
    location := some "westus"
    login_server := "myregistry.azurecr.io"
    creation_date := 0
    provisioning_state := "Succeeded"
    admin_user_enabled := true
    storage_account_name := some "acct1"
    sku_name := "Basic"
    tags := none }

/-- Module arguments used by concrete instances. -/
def sampleArgs : ModuleArgs :=
  { resource_group := "rg1"
    name := "myregistry"
    state := "present"
    location := none
    storage_account_name := some "acct1"
    admin_user_enabled := false
    sku_name := "Basic"
    tags := some [("env", "dev")]
    check_mode := false }

/-- Collaborator responses used by concrete instances. -/
def sampleEnv : Env :=
  { resource_group := some { location := "westus" }
    registry_first := some sampleRecord
    registry_after_write := some sampleRecord
    storage_keys := some { keys := [{ value := "KEY" }] }
    delete_error := none
    create_error := none
    update_error := none
    now := 7 }

/-- Module arguments matching `sampleRecord` on every compared field: equal
`admin_user_enabled`, equal storage account, and no requested tags. -/
def noDiffArgs : ModuleArgs :=
  { sampleArgs with admin_user_enabled := true, tags := none }

/-- C3: a name shorter than 5 or longer than 50 characters makes the
invocation fail with a `ConfigurationError`, with zero remote calls issued by
the reconciliation algorithm.  (When the resource-group precondition already
fails, the failure is also a `ConfigurationError` with zero calls.) -/
theorem name_length_out_of_range_fails_before_any_remote_call
    (args : ModuleArgs) (env : Env)
    (h : args.name.length < 5 ∨ args.name.length > 50) :
    ∃ msg, exec_module args env = (Except.error (Failure.configurationError msg), []) := by
  obtain ⟨rgp, rf, raw, sk, de, ce, ue, now⟩ := env
  cases rgp with
  | none => exact ⟨"Parameter error: An existing resource group is required", rfl⟩
  | some rg =>
    refine ⟨"Parameter error: name length must be between 5 and 50 characters.", ?_⟩
    simp only [exec_module]
    split
    · rfl
    · rfl

/-- C3 witness. -/
theorem name_length_out_of_range_fails_before_any_remote_call_witness :
    (({ sampleArgs with name := "abc" } : ModuleArgs).name.length < 5 ∨
      ({ sampleArgs with name := "abc" } : ModuleArgs).name.length > 50) ∧
    ∃ msg, exec_module { sampleArgs with name := "abc" } sampleEnv =
      (Except.error (Failure.configurationError msg), []) :=
  ⟨by decide,
   name_length_out_of_range_fails_before_any_remote_call
     { sampleArgs with name := "abc" } sampleEnv (by decide)⟩

/-- C4: `state=absent` in check mode reports `changed=true` with a `None`
state and issues no remote call at all — in particular no registry lookup and
no delete — whatever the registry lookup would have returned. -/
theorem absent_check_mode_reports_changed_without_lookup
    (args : ModuleArgs) (env : Env) (rg : ResourceGroup)
    (hrg : env.resource_group = some rg)
    (hlen : ¬(args.name.length < 5 ∨ args.name.length > 50))
    (hstate : args.state = "absent")
    (hcm : args.check_mode = true) :
    exec_module args env =
      (Except.ok { changed := true, state := ResultState.null }, []) := by
  obtain ⟨rgp, rf, raw, sk, de, ce, ue, now⟩ := env
  simp only at hrg
  subst hrg
  simp only [exec_module]
  split
  all_goals simp [delete_container_registry, hstate, hcm, hlen]

/-- C4 witness. -/
theorem absent_check_mode_reports_changed_without_lookup_witness :
    exec_module { sampleArgs with state := "absent", check_mode := true } sampleEnv =
      (Except.ok { changed := true, state := ResultState.null }, []) :=
  absent_check_mode_reports_changed_without_lookup
    { sampleArgs with state := "absent", check_mode := true } sampleEnv
    { location := "westus" } rfl (by decide) rfl rfl

/-- C2 (amended): `state=absent`, not in check mode, lookup returns `None`:
the invocation returns `changed=false` with the result state left at its
initial empty mapping (not `None`), and issues exactly one remote call — the
registry lookup — and zero writes. -/
theorem absent_not_found_reports_unchanged_single_lookup
    (args : ModuleArgs) (env : Env) (rg : ResourceGroup)
    (hrg : env.resource_group = some rg)
    (hlen : ¬(args.name.length < 5 ∨ args.name.length > 50))
    (hstate : args.state = "absent")
    (hcm : args.check_mode = false)
    (hfirst : env.registry_first = none) :
    exec_module args env =
      (Except.ok { changed := false, state := ResultState.empty },
       [RemoteCall.registryGet args.resource_group args.name]) := by
  obtain ⟨rgp, rf, raw, sk, de, ce, ue, now⟩ := env
  simp only at hrg hfirst
  subst hrg
  subst hfirst
  simp only [exec_module]
  split
  all_goals simp [delete_container_registry, get_container_registry, hstate, hcm, hlen]

/-- C2 counterexample: on the concrete absent-and-not-found input the result
state is the initial empty dict, which is not `None` as the claim states. -/
theorem absent_not_found_state_is_empty_not_null :
    (exec_module { sampleArgs with state := "absent" }
        { sampleEnv with registry_first := none }).1 =
      Except.ok { changed := false, state := ResultState.empty } ∧
    ResultState.empty ≠ ResultState.null :=
  ⟨rfl, by decide⟩

/-- C2 witness. -/
theorem absent_not_found_reports_unchanged_single_lookup_witness :
    exec_module { sampleArgs with state := "absent" }
        { sampleEnv with registry_first := none } =
      (Except.ok { changed := false, state := ResultState.empty },
       [RemoteCall.registryGet "rg1" "myregistry"]) :=
  absent_not_found_reports_unchanged_single_lookup
    { sampleArgs with state := "absent" } { sampleEnv with registry_first := none }
    { location := "westus" } rfl (by decide) rfl rfl rfl

/-- C5 (amended): `state=absent`, not in check mode, lookup finds a registry:
exactly one delete call is issued after the lookup; on provider success the
invocation returns `changed=true` with the result state left at its initial
empty mapping (not `None`), and a provider failure of the delete surfaces as a
`RemoteOperationError`. -/
theorem absent_existing_deletes_once_keeps_initial_state
    (args : ModuleArgs) (env : Env) (rg : ResourceGroup) (reg : RegistryRecord)
    (hrg : env.resource_group = some rg)
    (hlen : ¬(args.name.length < 5 ∨ args.name.length > 50))
    (hstate : args.state = "absent")
    (hcm : args.check_mode = false)
    (hfirst : env.registry_first = some reg) :
    (env.delete_error = none →
      exec_module args env =
        (Except.ok { changed := true, state := ResultState.empty },
         [RemoteCall.registryGet args.resource_group args.name,
          RemoteCall.registryDelete args.resource_group args.name])) ∧
    (∀ e, env.delete_error = some e →
      exec_module args env =
        (Except.error (Failure.remoteOperationError
          ("Failed to delete the container registry: " ++ e)),
         [RemoteCall.registryGet args.resource_group args.name,
          RemoteCall.registryDelete args.resource_group args.name])) := by
  obtain ⟨rgp, rf, raw, sk, de, ce, ue, now⟩ := env
  simp only at hrg hfirst
  subst hrg
  subst hfirst
  constructor
  · intro hde
    simp only at hde
    subst hde
    simp only [exec_module]
    split
    all_goals simp [delete_container_registry, get_container_registry, hstate, hcm, hlen]
  · intro e hde
    simp only at hde
    subst hde
    simp only [exec_module]
    split
    all_goals simp [delete_container_registry, get_container_registry, hstate, hcm, hlen]

/-- C5 counterexample: on the concrete absent-and-found input (successful
delete) the result state is the initial empty dict, not `None` as the claim
states. -/
theorem absent_existing_delete_state_is_empty_not_null :
    (exec_module { sampleArgs with state := "absent" } sampleEnv).1 =
      Except.ok { changed := true, state := ResultState.empty } ∧
    ResultState.empty ≠ ResultState.null :=
  ⟨rfl, by decide⟩

/-- C5 witness. -/
theorem absent_existing_deletes_once_keeps_initial_state_witness :
    (exec_module { sampleArgs with state := "absent" } sampleEnv =
      (Except.ok { changed := true, state := ResultState.empty },
       [RemoteCall.registryGet "rg1" "myregistry",
        RemoteCall.registryDelete "rg1" "myregistry"])) ∧
    (exec_module { sampleArgs with state := "absent" }
        { sampleEnv with delete_error := some "boom" } =
      (Except.error (Failure.remoteOperationError
        "Failed to delete the container registry: boom"),
       [RemoteCall.registryGet "rg1" "myregistry",
        RemoteCall.registryDelete "rg1" "myregistry"])) :=
  ⟨(absent_existing_deletes_once_keeps_initial_state
      { sampleArgs with state := "absent" } sampleEnv
      { location := "westus" } sampleRecord rfl (by decide) rfl rfl rfl).1 rfl,
   (absent_existing_deletes_once_keeps_initial_state
      { sampleArgs with state := "absent" } { sampleEnv with delete_error := some "boom" }
      { location := "westus" } sampleRecord rfl (by decide) rfl rfl rfl).2 "boom" rfl⟩

/-- C1 (amended): `state=present`, registry found, and no compared field
differs (`admin_user_enabled` equal, `storage_account_name` equal, tag merge
reports no change): the invocation returns `changed=false` with the result
state left at its initial empty mapping (the existing record is never written
into the result), and issues no remote write call — the registry lookup is the
only remote call. -/
theorem update_no_change_keeps_initial_state_no_write
    (args : ModuleArgs) (env : Env) (rg : ResourceGroup) (reg : RegistryRecord) (s : String)
    (hrg : env.resource_group = some rg)
    (hlen : ¬(args.name.length < 5 ∨ args.name.length > 50))
    (hstate : args.state = "present")
    (hfirst : env.registry_first = some reg)
    (hsan : args.storage_account_name = some s)
    (hsame : reg.storage_account_name = some s)
    (hadmin : args.admin_user_enabled = reg.admin_user_enabled)
    (htags : (update_tags reg.tags args.tags).1 = false) :
    exec_module args env =
      (Except.ok { changed := false, state := ResultState.empty },
       [RemoteCall.registryGet args.resource_group args.name]) := by
  obtain ⟨rgp, rf, raw, sk, de, ce, ue, now⟩ := env
  simp only at hrg hfirst
  subst hrg
  subst hfirst
  simp only [exec_module]
  split
  all_goals
    simp [update_container_registry, update_finish, get_container_registry,
      hstate, hsan, hsame, hadmin, htags, hlen]

/-- C1 counterexample: a concrete no-difference update input (equal
`admin_user_enabled`, equal storage account, tag merge without change) on
which the invocation returns `changed=false` but the result state is the
initial empty dict, not the existing registry record as the claim states. -/
theorem update_no_change_result_is_not_existing_record :
    noDiffArgs.admin_user_enabled = sampleRecord.admin_user_enabled ∧
    noDiffArgs.storage_account_name = sampleRecord.storage_account_name ∧
    (update_tags sampleRecord.tags noDiffArgs.tags).1 = false ∧
    (exec_module noDiffArgs sampleEnv).1 =
      Except.ok { changed := false, state := ResultState.empty } ∧
    ResultState.empty ≠ ResultState.record sampleRecord :=
  ⟨by decide, by decide, by decide, rfl, by decide⟩

/-- C1 witness. -/
theorem update_no_change_keeps_initial_state_no_write_witness :
    exec_module noDiffArgs sampleEnv =
      (Except.ok { changed := false, state := ResultState.empty },
       [RemoteCall.registryGet "rg1" "myregistry"]) :=
  update_no_change_keeps_initial_state_no_write
    noDiffArgs sampleEnv
    { location := "westus" } sampleRecord "acct1" rfl (by decide) rfl rfl rfl rfl rfl rfl

/-- C6: check-mode create (`state=present`, lookup returns `None`) issues
zero remote write calls — the registry lookup is the only call — and returns
`changed=true` with a synthesized record whose `provisioning_state` is
`"Succeeded"` and whose `login_server` is the name followed by
`".azurecr.io"`. -/
theorem check_mode_create_synthesizes_succeeded_record_no_write
    (args : ModuleArgs) (env : Env) (rg : ResourceGroup)
    (hrg : env.resource_group = some rg)
    (hlen : ¬(args.name.length < 5 ∨ args.name.length > 50))
    (hstate : args.state = "present")
    (hcm : args.check_mode = true)
    (hfirst : env.registry_first = none) :
    ∃ rec, exec_module args env =
        (Except.ok { changed := true, state := ResultState.record rec },
         [RemoteCall.registryGet args.resource_group args.name]) ∧
      (exec_module args env).2.filter RemoteCall.isWrite = [] ∧
      rec.provisioning_state = "Succeeded" ∧
      rec.login_server = args.name ++ ".azurecr.io" := by
  obtain ⟨rgp, rf, raw, sk, de, ce, ue, now⟩ := env
  simp only at hrg hfirst
  subst hrg
  subst hfirst
  refine ⟨self_to_dict
    (if locationFalsy args.location then { args with location := some rg.location } else args)
    now, ?_⟩
  simp only [exec_module]
  split
  all_goals
    simp [create_container_registry, get_container_registry, self_to_dict,
      RemoteCall.isWrite, hstate, hcm, hlen]

/-- C6 witness. -/
theorem check_mode_create_synthesizes_succeeded_record_no_write_witness :
    ∃ rec, exec_module { sampleArgs with check_mode := true }
          { sampleEnv with registry_first := none } =
        (Except.ok { changed := true, state := ResultState.record rec },
         [RemoteCall.registryGet "rg1" "myregistry"]) ∧
      (exec_module { sampleArgs with check_mode := true }
          { sampleEnv with registry_first := none }).2.filter RemoteCall.isWrite = [] ∧
      rec.provisioning_state = "Succeeded" ∧
      rec.login_server = "myregistry" ++ ".azurecr.io" :=
  check_mode_create_synthesizes_succeeded_record_no_write
    { sampleArgs with check_mode := true } { sampleEnv with registry_first := none }
    { location := "westus" } rfl (by decide) rfl rfl rfl

/-- C7: the update scenario — existing registry with `admin_user_enabled`
true, the same storage account as requested, and no tags, while the request
asks for `admin_user_enabled` false and tags `{env: dev}` — issues exactly one
update call whose delta carries only the `admin_user_enabled` change and the
merged tags, and performs no storage-account-key lookup; the only other
remote calls are the lookup before and the re-fetch after the update. -/
theorem update_scenario_delta_admin_and_tags_single_update_no_key_lookup
    (args : ModuleArgs) (env : Env) (rg : ResourceGroup) (reg : RegistryRecord) (s : String)
    (hrg : env.resource_group = some rg)
    (hlen : ¬(args.name.length < 5 ∨ args.name.length > 50))
    (hstate : args.state = "present")
    (hcm : args.check_mode = false)
    (hfirst : env.registry_first = some reg)
    (hsan : args.storage_account_name = some s)
    (hsame : reg.storage_account_name = some s)
    (hadminArgs : args.admin_user_enabled = false)
    (hadminReg : reg.admin_user_enabled = true)
    (htagsReg : reg.tags = none)
    (htagsArgs : args.tags = some [("env", "dev")])
    (hupd : env.update_error = none) :
    exec_module args env =
      (Except.ok { changed := true, state := ResultState.ofOption env.registry_after_write },
       [RemoteCall.registryGet args.resource_group args.name,
        RemoteCall.registryUpdate args.resource_group args.name
          { admin_user_enabled := some false, storage_account := none,
            tags := some [("env", "dev")] },
        RemoteCall.registryGet args.resource_group args.name]) := by
  obtain ⟨rgp, rf, raw, sk, de, ce, ue, now⟩ := env
  simp only at hrg hfirst hupd
  subst hrg
  subst hfirst
  subst hupd
  simp only [exec_module]
  split
  all_goals
    simp [update_container_registry, update_finish, get_container_registry,
      update_tags, mergeStep, tagLookup, tagSet, ResultState.ofOption,
      hstate, hcm, hsan, hsame, hadminArgs, hadminReg, htagsReg, htagsArgs, hlen]

/-- C7 witness. -/
theorem update_scenario_delta_admin_and_tags_single_update_no_key_lookup_witness :
    exec_module sampleArgs sampleEnv =
      (Except.ok { changed := true, state := ResultState.ofOption sampleEnv.registry_after_write },
       [RemoteCall.registryGet "rg1" "myregistry",
        RemoteCall.registryUpdate "rg1" "myregistry"
          { admin_user_enabled := some false, storage_account := none,
            tags := some [("env", "dev")] },
        RemoteCall.registryGet "rg1" "myregistry"]) :=
  update_scenario_delta_admin_and_tags_single_update_no_key_lookup
    sampleArgs sampleEnv { location := "westus" } sampleRecord "acct1"
    rfl (by decide) rfl rfl rfl rfl rfl rfl rfl rfl rfl rfl

/-- C8: non-check-mode create path (`state=present`, lookup returns `None`):
if `storage_account_name` is unset, or the storage-key listing comes back
`None`, the invocation fails with a `ConfigurationError` and its remote-call
trace holds no write — in particular no create call. -/
theorem create_missing_storage_account_or_key_fails_before_create
    (args : ModuleArgs) (env : Env) (rg : ResourceGroup)
    (hrg : env.resource_group = some rg)
    (hlen : ¬(args.name.length < 5 ∨ args.name.length > 50))
    (hstate : args.state = "present")
    (hcm : args.check_mode = false)
    (hfirst : env.registry_first = none)
    (hcase : args.storage_account_name = none ∨
      (args.storage_account_name ≠ none ∧ env.storage_keys = none)) :
    ∃ msg trace, exec_module args env =
        (Except.error (Failure.configurationError msg), trace) ∧
      trace.filter RemoteCall.isWrite = [] := by
  obtain ⟨rgp, rf, raw, sk, de, ce, ue, now⟩ := env
  simp only at hrg hfirst
  subst hrg
  subst hfirst
  rcases hcase with hsan | ⟨hsan, hsk⟩
  · refine ⟨"Parameter error: A valid storage account name is required.",
      [RemoteCall.registryGet args.resource_group args.name], ?_, rfl⟩
    simp only [exec_module]
    split
    all_goals
      simp [create_container_registry, get_container_registry, hstate, hcm, hsan, hlen]
  · simp only at hsk
    subst hsk
    refine ⟨"Parameter error: A valid storage account is required.",
      [RemoteCall.registryGet args.resource_group args.name,
       RemoteCall.storageListKeys args.resource_group args.storage_account_name], ?_, rfl⟩
    simp only [exec_module]
    split
    all_goals
      simp [create_container_registry, get_container_registry, get_storage_account_key,
        hstate, hcm, hsan, hlen]

/-- C8 witness. -/
theorem create_missing_storage_account_or_key_fails_before_create_witness :
    ∃ msg trace, exec_module { sampleArgs with storage_account_name := none }
        { sampleEnv with registry_first := none } =
        (Except.error (Failure.configurationError msg), trace) ∧
      trace.filter RemoteCall.isWrite = [] :=
  create_missing_storage_account_or_key_fails_before_create
    { sampleArgs with storage_account_name := none } { sampleEnv with registry_first := none }
    { location := "westus" } rfl (by decide) rfl rfl rfl (Or.inl rfl)

/-- C9: check-mode create returns before the `storage_account_name`
validation: with `state=present`, no existing registry and
`storage_account_name` unset, the invocation still succeeds with
`changed=true` and a synthesized record whose `storage_account_name` is
`None` — no `ConfigurationError` is raised. -/
theorem check_mode_create_skips_storage_account_validation
    (args : ModuleArgs) (env : Env) (rg : ResourceGroup)
    (hrg : env.resource_group = some rg)
    (hlen : ¬(args.name.length < 5 ∨ args.name.length > 50))
    (hstate : args.state = "present")
    (hcm : args.check_mode = true)
    (hfirst : env.registry_first = none)
    (hsan : args.storage_account_name = none) :
    ∃ rec, exec_module args env =
        (Except.ok { changed := true, state := ResultState.record rec },
         [RemoteCall.registryGet args.resource_group args.name]) ∧
      rec.storage_account_name = none := by
  obtain ⟨rgp, rf, raw, sk, de, ce, ue, now⟩ := env
  simp only at hrg hfirst
  subst hrg
  subst hfirst
  refine ⟨self_to_dict
    (if locationFalsy args.location then { args with location := some rg.location } else args)
    now, ?_⟩
  simp only [exec_module]
  split
  all_goals
    simp [create_container_registry, get_container_registry, self_to_dict,
      hstate, hcm, hsan, hlen]

/-- C9 witness. -/
theorem check_mode_create_skips_storage_account_validation_witness :
    ∃ rec, exec_module
          { sampleArgs with check_mode := true, storage_account_name := none }
          { sampleEnv with registry_first := none } =
        (Except.ok { changed := true, state := ResultState.record rec },
         [RemoteCall.registryGet "rg1" "myregistry"]) ∧
      rec.storage_account_name = none :=
  check_mode_create_skips_storage_account_validation
    { sampleArgs with check_mode := true, storage_account_name := none }
    { sampleEnv with registry_first := none }
    { location := "westus" } rfl (by decide) rfl rfl rfl rfl

/-- C10: the storage-key fetch maps a `None` key listing (a caught provider
error) to a `ConfigurationError`, but indexes the first element of a
successfully returned key list without a guard: an empty list surfaces as an
uncaught `IndexError`, never as a `ConfigurationError`. -/
theorem storage_key_fetch_unguarded_first_index (args : ModuleArgs) (env : Env) :
    (env.storage_keys = none →
      (get_storage_account_key args env).1 =
        Except.error (Failure.configurationError
          "Parameter error: A valid storage account is required.")) ∧
    (∀ ks, env.storage_keys = some ks → ks.keys = [] →
      (get_storage_account_key args env).1 =
        Except.error (Failure.uncaughtException "IndexError: list index out of range")) ∧
    (∀ ks msg, env.storage_keys = some ks → ks.keys = [] →
      (get_storage_account_key args env).1 ≠
        Except.error (Failure.configurationError msg)) := by
  refine ⟨?_, ?_, ?_⟩
  · intro h
    simp [get_storage_account_key, h]
  · intro ks h hk
    simp [get_storage_account_key, h, hk]
  · intro ks msg h hk
    simp [get_storage_account_key, h, hk]

/-- C10 witness. -/
theorem storage_key_fetch_unguarded_first_index_witness :
    (get_storage_account_key sampleArgs
        { sampleEnv with storage_keys := some { keys := [] } }).1 =
      Except.error (Failure.uncaughtException "IndexError: list index out of range") ∧
    (get_storage_account_key sampleArgs { sampleEnv with storage_keys := none }).1 =
      Except.error (Failure.configurationError
        "Parameter error: A valid storage account is required.") :=
  ⟨(storage_key_fetch_unguarded_first_index sampleArgs
      { sampleEnv with storage_keys := some { keys := [] } }).2.1
      { keys := [] } rfl rfl,
   (storage_key_fetch_unguarded_first_index sampleArgs
      { sampleEnv with storage_keys := none }).1 rfl⟩

end AzureRmContainerRegistry
